import Mathlib

/-!
Shallow embedding of the todoList backend (server/app: config.py, auth.py,
db.py, main.py) together with theorems settling the specification claims.

Python values that flow through claim dictionaries are modelled by `PyVal`;
dictionaries by association lists with first-match lookup; machine side
effects (SQL statements against the users/tasks tables) by explicit state
passing over lists of rows.  Network calls are modelled up to the request
they would issue: a function that would POST returns the request descriptor
on the success path, so that "no network call is made" is expressible.
-/

/-- Model of a Python value as it appears in decoded JWT claim dictionaries
and JSON payloads (the cases exercised by this code base). -/
inductive PyVal where
  | none
  | str (s : String)
  | int (n : Int)
  | bool (b : Bool)
deriving DecidableEq, Repr

/-- Python truthiness (`if not x`) for the modelled values. -/
def PyVal.truthy : PyVal → Bool
  | .none => false
  | .str s => s ≠ ""
  | .int n => n ≠ 0
  | .bool b => b

/-- A Python dict with string keys, modelled as an association list with
first-match lookup (Python dicts have unique keys). -/
abbrev PyDict : Type := List (String × PyVal)

/-- Lookup modelling `d[k]` returning `Option`: `Option.none` when the key is
absent. -/
def PyDict.get (d : PyDict) (k : String) : Option PyVal :=
  (List.find? (fun kv => kv.1 = k) d).map (fun kv => kv.2)

/-- Lookup modelling Python `d.get(k)`, whose result is the value `None` when
the key is absent. -/
def PyDict.pyGet (d : PyDict) (k : String) : PyVal :=
  (d.get k).getD PyVal.none

/-- Model of Python `str.strip()` with no argument, on the ASCII whitespace
this code base encounters.  Written over the character list so that it
evaluates by kernel reduction. -/
def pyStrip (s : String) : String :=
  String.mk ((s.data.dropWhile Char.isWhitespace).reverse.dropWhile Char.isWhitespace).reverse

/-- Model of the environment passed to `os.getenv`: `Option.none` means the
variable is unset, `some v` that it is set to `v` (possibly empty). -/
abbrev Env : Type := String → Option String

/-- Embedding of `config.Settings` (config.py, lines 16-63). -/
structure Settings where
  port : Int
  cognito_region : String
  cognito_user_pool_id : String
  cognito_client_id : String
  cognito_client_secret : Option String
  cognito_domain : String
  cognito_redirect_uris : List String
  allowed_origins : List String
deriving DecidableEq, Repr

/-- Embedding of `Settings.cognito_redirect_uri` (config.py line 63): the
first configured redirect URI.  The source indexes `[0]`, which is safe
because the constructor guarantees a non-empty list; the model defaults to
the empty string on the unreachable empty case. -/
def Settings.cognito_redirect_uri (s : Settings) : String :=
  s.cognito_redirect_uris.headD ""

/-- Embedding of `Settings.cognito_base_url` (config.py line 45). -/
def Settings.cognito_base_url (s : Settings) : String :=
  String.mk (s.cognito_domain.data.reverse.dropWhile (fun c => c = '/')).reverse

/-- Embedding of `Settings.token_endpoint` (config.py line 51). -/
def Settings.token_endpoint (s : Settings) : String :=
  s.cognito_base_url ++ "/oauth2/token"

/-- Embedding of `Settings.userinfo_endpoint` (config.py line 57). -/
def Settings.userinfo_endpoint (s : Settings) : String :=
  s.cognito_base_url ++ "/oauth2/userInfo"

/-- Embedding of `Settings.issuer` (config.py line 33). -/
def Settings.issuer (s : Settings) : String :=
  "https://cognito-idp." ++ s.cognito_region ++ ".amazonaws.com/" ++ s.cognito_user_pool_id

/-- Embedding of `config.REQUIRED_ENV_VARS` (config.py lines 65-71). -/
def REQUIRED_ENV_VARS : List String :=
  ["COGNITO_REGION", "COGNITO_USER_POOL_ID", "COGNITO_CLIENT_ID",
   "COGNITO_DOMAIN", "COGNITO_REDIRECT_URI"]

/-- The list comprehension in `get_settings` (config.py line 97): variables
whose value is unset or Python-falsy (the empty string). -/
def missingVars (env : Env) : List String :=
  REQUIRED_ENV_VARS.filter (fun k =>
    match env k with
    | Option.none => true
    | some v => v = "")

/-- Embedding of `config._parse_allowed_origins` (config.py lines 74-79). -/
def parse_allowed_origins (raw_origins : Option String) : List String :=
  match raw_origins with
  | Option.none => ["*"]
  | some raw =>
    if raw = "" then ["*"]
    else
      let origins := ((raw.splitOn ",").map pyStrip).filter (fun o => o ≠ "")
      if origins = [] then ["*"] else origins

/-- Embedding of `config._parse_redirect_uris` (config.py lines 81-86). -/
def parse_redirect_uris (raw_uris : String) : Except String (List String) :=
  let uris := ((raw_uris.splitOn ",").map pyStrip).filter (fun u => u ≠ "")
  if uris = [] then Except.error "COGNITO_REDIRECT_URI must contain at least one URI."
  else Except.ok uris

/-- Model of Python `int(s)` on decimal string literals: optional sign,
surrounding whitespace allowed, at least one digit. -/
def pyInt (s : String) : Option Int :=
  (pyStrip s).toInt?

/-- Embedding of `config.get_settings` (config.py lines 89-121).  Errors are
the `RuntimeError` messages raised by the source. -/
def get_settings (env : Env) : Except String Settings :=
  if missingVars env = [] then
    let port_raw := (env "PORT").getD "4000"
    match pyInt port_raw with
    | Option.none => Except.error "PORT must be an integer value"
    | some port =>
      let allowed_origins := parse_allowed_origins (env "ALLOWED_ORIGIN")
      match parse_redirect_uris ((env "COGNITO_REDIRECT_URI").getD "") with
      | Except.error e => Except.error e
      | Except.ok redirect_uris =>
        Except.ok
          ⟨port, (env "COGNITO_REGION").getD "", (env "COGNITO_USER_POOL_ID").getD "",
           (env "COGNITO_CLIENT_ID").getD "", env "COGNITO_CLIENT_SECRET",
           (env "COGNITO_DOMAIN").getD "", redirect_uris, allowed_origins⟩
  else
    Except.error ("Missing required environment variables: " ++
      String.intercalate ", " (missingVars env))

/-- Error taxonomy of the Python exception classes raised by auth.py, db.py
and `upsert_user` (`ValueError` from the standard library, `DatabaseError`
from db.py). -/
inductive PyError where
  | tokenVerification (msg : String)
  | tokenExchange (msg : String)
  | userInfo (msg : String)
  | valueError (msg : String)
  | databaseError (msg : String)
deriving DecidableEq, Repr

/-- Descriptor of the form-encoded POST that `exchange_code_for_tokens`
issues to the token endpoint (auth.py lines 68-86).  The model stops at the
request: returning a descriptor stands for the network call being made. -/
structure PostRequest where
  url : String
  grant_type : String
  client_id : String
  code : String
  redirect_uri : String
  basic_auth : Option (String × String)
deriving DecidableEq, Repr

/-- Python `x or y` for an optional string `x`: the default `y` is used when
`x` is `None` or falsy (the empty string). -/
def pyOrString (x : Option String) (y : String) : String :=
  match x with
  | Option.none => y
  | some s => if s = "" then y else s

/-- Embedding of `auth.exchange_code_for_tokens` (auth.py lines 50-100) up to
the point where the network request is issued: the error case is the
`TokenExchangeError` raised before any network traffic, the success case is
the POST the source then sends.  Responses of the remote endpoint are
outside the model. -/
def exchange_code_for_tokens (settings : Settings) (code : String)
    (redirect_uri : Option String) : Except PyError PostRequest :=
  let redirect_target := pyOrString redirect_uri settings.cognito_redirect_uri
  if redirect_target ∈ settings.cognito_redirect_uris then
    let auth : Option (String × String) :=
      match settings.cognito_client_secret with
      | Option.none => Option.none
      | some secret =>
        if secret = "" then Option.none
        else some (settings.cognito_client_id, secret)
    Except.ok
      ⟨settings.token_endpoint, "authorization_code", settings.cognito_client_id,
       code, redirect_target, auth⟩
  else
    Except.error (PyError.tokenExchange
      ("Received redirect URI does not match configured value. Expected one of: " ++
        String.intercalate ", " settings.cognito_redirect_uris))

/-- Embedding of `auth.validate_id_token` (auth.py lines 125-162).  The two
cryptographic stages are modelled by their outcomes, which the function
receives as arguments: `signingKey` is `Option.none` when
`get_signing_key_from_jwt` raises `PyJWKClientError`, and `decoded` is
`Option.none` when `jwt.decode` (RS256 signature, issuer, audience and
time-based checks) raises `InvalidTokenError`, otherwise the decoded
payload.  Everything after `jwt.decode` is modelled exactly. -/
def validate_id_token (signingKey : Option Unit) (decoded : Option PyDict) :
    Except PyError PyDict :=
  match signingKey with
  | Option.none => Except.error (PyError.tokenVerification "No signing key found for the provided token.")
  | some _ =>
    match decoded with
    | Option.none => Except.error (PyError.tokenVerification "Unable to verify token.")
    | some payload =>
      if payload.get "token_use" ≠ some (PyVal.str "id") then
        Except.error (PyError.tokenVerification "The provided token is not an ID token.")
      else
        Except.ok payload

/-- Row of the `users` table (db.py lines 76-89).  Timestamps model the
`CURRENT_TIMESTAMP` values written by the upsert statement; the logical
clock is passed in explicitly. -/
structure UserRow where
  sub : PyVal
  email : PyVal
  name : PyVal
  given_name : PyVal
  family_name : PyVal
  picture : PyVal
  created_at : Nat
  updated_at : Nat
deriving DecidableEq, Repr

/-- State of the `users` table. -/
abbrev UsersDb : Type := List UserRow

/-- Embedding of `db.upsert_user` (db.py lines 127-164).  The `INSERT ... ON
CONFLICT(sub) DO UPDATE` statement becomes: update every existing row whose
`sub` equals the payload subject (there is at most one, `sub` being the
primary key), or append a fresh row when none exists.  `now` models
`CURRENT_TIMESTAMP`.  The error case is the `ValueError` raised before the
statement runs; `DatabaseError` wraps engine failures, which are
environmental and outside the model. -/
def upsert_user (db : UsersDb) (payload : PyDict) (now : Nat) :
    Except PyError (UsersDb × PyDict) :=
  let sub := payload.pyGet "sub"
  if sub.truthy then
    let user : PyDict :=
      [("sub", sub), ("email", payload.pyGet "email"), ("name", payload.pyGet "name"),
       ("given_name", payload.pyGet "given_name"),
       ("family_name", payload.pyGet "family_name"),
       ("picture", payload.pyGet "picture")]
    let db' : UsersDb :=
      if db.any (fun r => r.sub == sub) then
        db.map (fun r =>
          if r.sub == sub then
            ⟨r.sub, payload.pyGet "email", payload.pyGet "name",
             payload.pyGet "given_name", payload.pyGet "family_name",
             payload.pyGet "picture", r.created_at, now⟩
          else r)
      else
        db ++ [⟨sub, payload.pyGet "email", payload.pyGet "name",
                payload.pyGet "given_name", payload.pyGet "family_name",
                payload.pyGet "picture", now, now⟩]
    Except.ok (db', user)
  else
    Except.error (PyError.valueError "ID token payload did not include a subject identifier.")

/-- Row of the `tasks` table (db.py lines 107-120).  `user_email` is a
nullable TEXT column; `isactive` is the INTEGER column the source stores 1
or 0 into. -/
structure TaskRow where
  id : Int
  description : String
  date : String
  time : String
  user_email : Option String
  isactive : Int
deriving DecidableEq, Repr

/-- State of the `tasks` table. -/
abbrev TasksDb : Type := List TaskRow

/-- Identifier assigned by `INTEGER PRIMARY KEY AUTOINCREMENT` and reported
as `lastrowid` (db.py line 208): one more than the largest identifier in the
table.  Faithful for every state this program reaches, because rows are only
soft-deleted, never removed. -/
def nextId (db : TasksDb) : Int :=
  (db.map (fun r => r.id)).foldr max 0 + 1

/-- Embedding of `db.insert_task` (db.py lines 167-212): normalizes the
email with `(user_email or "").strip()`, stores the row with `isactive = 1`
and the normalized email bound to the nullable column, and returns
`(int(task_id), normalized_email or None)`. -/
def insert_task (db : TasksDb) (description task_date task_time : String)
    (user_email : Option String) : TasksDb × Int × Option String :=
  let normalized_email := pyStrip (user_email.getD "")
  let task_id := nextId db
  (db ++ [⟨task_id, description, task_date, task_time, some normalized_email, 1⟩],
   task_id,
   if normalized_email = "" then Option.none else some normalized_email)

/-- Lexicographic comparison of character lists, realising SQLite's binary
TEXT collation on the ASCII strings this schema stores.  Structurally
recursive so that it evaluates by kernel reduction. -/
def charsLt : List Char → List Char → Bool
  | _, [] => false
  | [], _ :: _ => true
  | a :: as, b :: bs => a < b || (a = b && charsLt as bs)

/-- Strict string comparison under binary collation. -/
def strLt (a b : String) : Bool :=
  charsLt a.data b.data

/-- Comparison realising `ORDER BY time, id` (db.py line 230) under SQLite's
binary TEXT collation: time ascending, identifier breaking ties. -/
def taskLe (a b : TaskRow) : Prop :=
  strLt a.time b.time = true ∨ (a.time = b.time ∧ a.id ≤ b.id)

instance : DecidableRel taskLe := fun a b => by
  unfold taskLe; infer_instance

/-- Embedding of `db.fetch_tasks_by_email_and_date` (db.py lines 215-244):
short-circuit on a blank email, otherwise the rows selected by
`user_email = :user_email AND date = :task_date AND isactive = 1`, ordered
by `ORDER BY time, id`.  SQL equality against the nullable email column
never matches NULL. -/
def fetch_tasks_by_email_and_date (db : TasksDb) (user_email task_date : String) :
    List TaskRow :=
  let normalized_email := pyStrip user_email
  if normalized_email = "" then []
  else
    List.insertionSort taskLe (db.filter (fun r =>
      r.user_email == some normalized_email && r.date == task_date && r.isactive == 1))

/-- Embedding of `db.deactivate_task` (db.py lines 248-270): the UPDATE
touches every row matching `id = :task_id AND isactive = 1`, and the
returned Boolean is `rowcount > 0`. -/
def deactivate_task (db : TasksDb) (task_id : Int) : TasksDb × Bool :=
  let hit := fun (r : TaskRow) => r.id == task_id && r.isactive == 1
  (db.map (fun r =>
      if hit r then ⟨r.id, r.description, r.date, r.time, r.user_email, 0⟩ else r),
   db.countP hit > 0)

/-- Model of a `datetime.time` value as used here: naive clock time with
microseconds. -/
structure PyTime where
  hour : Nat
  minute : Nat
  second : Nat
  microsecond : Nat
deriving DecidableEq, Repr

/-- Value of a two-digit ASCII field, as the stdlib parser reads it. -/
def digit2 (a b : Char) : Option Nat :=
  if a.isDigit && b.isDigit then some ((a.toNat - 48) * 10 + (b.toNat - 48))
  else Option.none

/-- Microsecond value of a fractional-second field of exactly three or six
digits: the precisions every supported CPython release accepts. -/
def fracVal : List Char → Option Nat
  | [a, b, c] =>
    if a.isDigit && b.isDigit && c.isDigit then
      some (((a.toNat - 48) * 100 + (b.toNat - 48) * 10 + (c.toNat - 48)) * 1000)
    else Option.none
  | [a, b, c, d, e, f] =>
    if a.isDigit && b.isDigit && c.isDigit && d.isDigit && e.isDigit && f.isDigit then
      some ((a.toNat - 48) * 100000 + (b.toNat - 48) * 10000 + (c.toNat - 48) * 1000 +
        (d.toNat - 48) * 100 + (e.toNat - 48) * 10 + (f.toNat - 48))
    else Option.none
  | _ => Option.none

/-- Character-level grammar of the stdlib call `datetime.time.fromisoformat`
(used by `TaskCreate._normalize_time`, main.py line 112), restricted to the
common core every supported CPython release parses identically: `HH:MM`,
`HH:MM:SS`, and `HH:MM:SS` with a fractional part of exactly three or six
digits, all components range-checked.  Release-specific extensions (bare
`HH`, other fraction lengths, UTC-offset suffixes) are outside the model. -/
def parseTimeChars : List Char → Option PyTime
  | [h1, h2, c1, m1, m2] =>
    if c1 = ':' then
      match digit2 h1 h2, digit2 m1 m2 with
      | some h, some m =>
        if h ≤ 23 && m ≤ 59 then some ⟨h, m, 0, 0⟩ else Option.none
      | _, _ => Option.none
    else Option.none
  | [h1, h2, c1, m1, m2, c2, s1, s2] =>
    if c1 = ':' ∧ c2 = ':' then
      match digit2 h1 h2, digit2 m1 m2, digit2 s1 s2 with
      | some h, some m, some sec =>
        if h ≤ 23 && m ≤ 59 && sec ≤ 59 then some ⟨h, m, sec, 0⟩ else Option.none
      | _, _, _ => Option.none
    else Option.none
  | h1 :: h2 :: c1 :: m1 :: m2 :: c2 :: s1 :: s2 :: c3 :: frac =>
    if c1 = ':' ∧ c2 = ':' ∧ c3 = '.' then
      match digit2 h1 h2, digit2 m1 m2, digit2 s1 s2, fracVal frac with
      | some h, some m, some sec, some us =>
        if h ≤ 23 && m ≤ 59 && sec ≤ 59 then some ⟨h, m, sec, us⟩ else Option.none
      | _, _, _, _ => Option.none
    else Option.none
  | _ => Option.none

/-- Model of `datetime.time.fromisoformat` over strings: parse the
character list with `parseTimeChars`. -/
def time_fromisoformat (s : String) : Option PyTime :=
  parseTimeChars s.data

/-- Two-digit zero-padded decimal field, as `strftime` renders `%H`, `%M`
and `%S`. -/
def pad2 (n : Nat) : String :=
  String.mk [Nat.digitChar (n / 10 % 10), Nat.digitChar (n % 10)]

/-- Rendering of `strftime("%H:%M")`. -/
def timeStrHM (h m : Nat) : String :=
  pad2 h ++ ":" ++ pad2 m

/-- Rendering of `strftime("%H:%M:%S")`. -/
def timeStrHMS (h m sec : Nat) : String :=
  pad2 h ++ ":" ++ pad2 m ++ ":" ++ pad2 sec

/-- Embedding of the `TaskCreate._normalize_time` validator (main.py lines
108-122): parse with `time.fromisoformat`, reject on failure, then render
`%H:%M:%S` when `normalized.second` is non-zero and `%H:%M` otherwise. -/
def TaskCreate_normalize_time (value : String) : Except String String :=
  match time_fromisoformat value with
  | Option.none => Except.error "time must be in HH:MM or HH:MM:SS format"
  | some t =>
    Except.ok (if t.second ≠ 0 then timeStrHMS t.hour t.minute t.second
               else timeStrHM t.hour t.minute)

/-- Written from the claim wording, for comparison with the code: a string
matching `HH:MM` or `HH:MM:SS` (two-digit decimal fields separated by
colons). -/
def matchesHHMMPattern (s : String) : Bool :=
  match s.data with
  | [h1, h2, ':', m1, m2] =>
    h1.isDigit && h2.isDigit && m1.isDigit && m2.isDigit
  | [h1, h2, ':', m1, m2, ':', s1, s2] =>
    h1.isDigit && h2.isDigit && m1.isDigit && m2.isDigit && s1.isDigit && s2.isDigit
  | _ => false

/-- Embedding of `main._process_id_token` (main.py lines 140-146): validate
the token, then upsert the user.  The pair carries the users-table state so
that "the store is unchanged" is expressible; an exception propagates with
the state it left behind. -/
def process_id_token (db : UsersDb) (signingKey : Option Unit)
    (decoded : Option PyDict) (now : Nat) : Except PyError PyDict × UsersDb :=
  match validate_id_token signingKey decoded with
  | Except.error e => (Except.error e, db)
  | Except.ok payload =>
    match upsert_user db payload now with
    | Except.error e => (Except.error e, db)
    | Except.ok (db', user) => (Except.ok user, db')

/-- Embedding of the `/auth/verify` handler `main.verify_token` (main.py
lines 184-199), reduced to its HTTP status mapping: 200 on success, 401 for
`TokenVerificationError`, 400 for `ValueError`, 500 for anything else. -/
def verify_token (db : UsersDb) (signingKey : Option Unit)
    (decoded : Option PyDict) (now : Nat) : Nat × UsersDb :=
  match process_id_token db signingKey decoded now with
  | (Except.ok _, db') => (200, db')
  | (Except.error (PyError.tokenVerification _), db') => (401, db')
  | (Except.error (PyError.valueError _), db') => (400, db')
  | (Except.error _, db') => (500, db')

/-- Keys of the persisted profile, in the order `upsert_user` builds its
returned dictionary (db.py lines 134-141). -/
def profileKeys : List String :=
  ["sub", "email", "name", "given_name", "family_name", "picture"]

/-- Concrete settings used to instantiate theorems with hypotheses. -/
def exSettings : Settings :=
  ⟨4000, "us-east-1", "us-east-1_pool", "client123", Option.none,
   "https://auth.example.com", ["https://app.example.com/callback"], ["*"]⟩

/-- Concrete one-row tasks table used to instantiate theorems. -/
def exTaskRow : TaskRow :=
  ⟨1, "Buy milk", "2024-01-05", "08:00", some "a@b.com", 1⟩

/-- Concrete second task row, same owner and date, later time. -/
def exTaskRow2 : TaskRow :=
  ⟨2, "Walk dog", "2024-01-05", "09:00", some "a@b.com", 1⟩

/-- Row written by `upsert_user` for subject `s` and payload `p`, with the
given created/updated timestamps. -/
def profileRow (s : PyVal) (p : PyDict) (created updated : Nat) : UserRow :=
  ⟨s, p.pyGet "email", p.pyGet "name", p.pyGet "given_name",
   p.pyGet "family_name", p.pyGet "picture", created, updated⟩

/-- Dictionary returned by `upsert_user` for subject `s` and payload `p`
(db.py lines 134-141). -/
def profileDict (s : PyVal) (p : PyDict) : PyDict :=
  [("sub", s), ("email", p.pyGet "email"), ("name", p.pyGet "name"),
   ("given_name", p.pyGet "given_name"), ("family_name", p.pyGet "family_name"),
   ("picture", p.pyGet "picture")]

/-- Concrete claim payload with no subject identifier. -/
def exPayloadNoSub : PyDict :=
  [("token_use", PyVal.str "id"), ("email", PyVal.str "x@y.example")]

theorem charsLt_trans : ∀ (a b c : List Char),
    charsLt a b = true → charsLt b c = true → charsLt a c = true
  | _, [], _, hab, _ => by simp [charsLt] at hab
  | _, _ :: _, [], _, hbc => by simp [charsLt] at hbc
  | [], _ :: _, _ :: _, _, _ => by simp [charsLt]
  | x :: xs, y :: ys, z :: zs, hab, hbc => by
    simp only [charsLt, Bool.or_eq_true, Bool.and_eq_true, decide_eq_true_eq] at hab hbc ⊢
    rcases hab with h1 | ⟨rfl, h1⟩
    · rcases hbc with h2 | ⟨rfl, h2⟩
      · exact Or.inl (lt_trans h1 h2)
      · exact Or.inl h1
    · rcases hbc with h2 | ⟨rfl, h2⟩
      · exact Or.inl h2
      · exact Or.inr ⟨rfl, charsLt_trans xs ys zs h1 h2⟩

theorem charsLt_total : ∀ (a b : List Char),
    charsLt a b = true ∨ a = b ∨ charsLt b a = true
  | [], [] => Or.inr (Or.inl rfl)
  | [], _ :: _ => Or.inl (by simp [charsLt])
  | _ :: _, [] => Or.inr (Or.inr (by simp [charsLt]))
  | x :: xs, y :: ys => by
    rcases lt_trichotomy x y with h | rfl | h
    · exact Or.inl (by simp [charsLt, h])
    · rcases charsLt_total xs ys with h | rfl | h
      · exact Or.inl (by simp [charsLt, h])
      · exact Or.inr (Or.inl rfl)
      · exact Or.inr (Or.inr (by simp [charsLt, h]))
    · exact Or.inr (Or.inr (by simp [charsLt, h]))

instance : IsTrans TaskRow taskLe := by
  constructor
  intro a b c hab hbc
  rcases hab with h1 | ⟨e1, le1⟩
  · rcases hbc with h2 | ⟨e2, _⟩
    · exact Or.inl (charsLt_trans _ _ _ h1 h2)
    · exact Or.inl (e2 ▸ h1)
  · rcases hbc with h2 | ⟨e2, le2⟩
    · exact Or.inl (e1 ▸ h2)
    · exact Or.inr ⟨e1.trans e2, le_trans le1 le2⟩

instance : IsTotal TaskRow taskLe := by
  constructor
  intro a b
  rcases charsLt_total a.time.data b.time.data with h | h | h
  · exact Or.inl (Or.inl h)
  · have e : a.time = b.time := String.ext h
    rcases le_total a.id b.id with hle | hle
    · exact Or.inl (Or.inr ⟨e, hle⟩)
    · exact Or.inr (Or.inr ⟨e.symm, hle⟩)
  · exact Or.inr (Or.inl h)

theorem digitChar_isDigit : ∀ d : Nat, d < 10 → (Nat.digitChar d).isDigit = true := by
  decide

theorem digitChar_val : ∀ d : Nat, d < 10 → (Nat.digitChar d).toNat - 48 = d := by
  decide

theorem digit2_digitChar (x y : Nat) (hx : x < 10) (hy : y < 10) :
    digit2 (Nat.digitChar x) (Nat.digitChar y) = some (x * 10 + y) := by
  simp [digit2, digitChar_isDigit x hx, digitChar_isDigit y hy,
    digitChar_val x hx, digitChar_val y hy]

theorem timeStrHM_data (h m : Nat) :
    (timeStrHM h m).data = [Nat.digitChar (h / 10 % 10), Nat.digitChar (h % 10), ':',
      Nat.digitChar (m / 10 % 10), Nat.digitChar (m % 10)] := by
  simp [timeStrHM, pad2, String.data_append]

theorem timeStrHMS_data (h m sec : Nat) :
    (timeStrHMS h m sec).data = [Nat.digitChar (h / 10 % 10), Nat.digitChar (h % 10), ':',
      Nat.digitChar (m / 10 % 10), Nat.digitChar (m % 10), ':',
      Nat.digitChar (sec / 10 % 10), Nat.digitChar (sec % 10)] := by
  simp [timeStrHMS, pad2, String.data_append]

theorem parse_timeStrHM (h m : Nat) (hh : h < 24) (hm : m < 60) :
    time_fromisoformat (timeStrHM h m) = some ⟨h, m, 0, 0⟩ := by
  unfold time_fromisoformat
  rw [timeStrHM_data]
  simp only [parseTimeChars, if_pos rfl]
  rw [digit2_digitChar _ _ (by omega) (by omega), digit2_digitChar _ _ (by omega) (by omega)]
  have e1 : h / 10 % 10 * 10 + h % 10 = h := by omega
  have e2 : m / 10 % 10 * 10 + m % 10 = m := by omega
  rw [e1, e2]
  simp [show h ≤ 23 by omega, show m ≤ 59 by omega]

theorem parse_timeStrHMS (h m sec : Nat) (hh : h < 24) (hm : m < 60) (hs : sec < 60) :
    time_fromisoformat (timeStrHMS h m sec) = some ⟨h, m, sec, 0⟩ := by
  unfold time_fromisoformat
  rw [timeStrHMS_data]
  simp only [parseTimeChars, if_pos (And.intro rfl rfl)]
  rw [digit2_digitChar _ _ (by omega) (by omega), digit2_digitChar _ _ (by omega) (by omega),
    digit2_digitChar _ _ (by omega) (by omega)]
  have e1 : h / 10 % 10 * 10 + h % 10 = h := by omega
  have e2 : m / 10 % 10 * 10 + m % 10 = m := by omega
  have e3 : sec / 10 % 10 * 10 + sec % 10 = sec := by omega
  rw [e1, e2, e3]
  simp [show h ≤ 23 by omega, show m ≤ 59 by omega, show sec ≤ 59 by omega]

/-- C8 (amended): a task-create time value in the form HH:MM or HH:MM:SS
(components in range) is accepted; any accepted value is normalized by
dropping the fractional part, omitting the seconds component when it is
zero (HH:MM) and keeping it otherwise (HH:MM:SS); and any value the parser
rejects yields the validation error. -/
theorem C8_time_accept_normalize :
    (∀ s, time_fromisoformat s = Option.none →
      TaskCreate_normalize_time s = Except.error "time must be in HH:MM or HH:MM:SS format") ∧
    (∀ s t, time_fromisoformat s = some t →
      TaskCreate_normalize_time s =
        Except.ok (if t.second = 0 then timeStrHM t.hour t.minute
                   else timeStrHMS t.hour t.minute t.second)) ∧
    (∀ h m, h < 24 → m < 60 →
      TaskCreate_normalize_time (timeStrHM h m) = Except.ok (timeStrHM h m)) ∧
    (∀ h m sec, h < 24 → m < 60 → sec < 60 →
      TaskCreate_normalize_time (timeStrHMS h m sec) =
        Except.ok (if sec = 0 then timeStrHM h m else timeStrHMS h m sec)) := by
  refine ⟨?_, ?_, ?_, ?_⟩
  · intro s h
    simp [TaskCreate_normalize_time, h]
  · intro s t h
    simp only [TaskCreate_normalize_time, h]
    by_cases h0 : t.second = 0 <;> simp [h0]
  · intro h m hh hm
    simp [TaskCreate_normalize_time, parse_timeStrHM h m hh hm]
  · intro h m sec hh hm hs
    simp only [TaskCreate_normalize_time, parse_timeStrHMS h m sec hh hm hs]
    by_cases h0 : sec = 0 <;> simp [h0]

/-- C8 counterexample: the value "09:30:15.123456" matches neither HH:MM nor
HH:MM:SS, yet the endpoint accepts it (normalizing to "09:30:15"), so
acceptance is not limited to those two forms. -/
theorem C8_counterexample :
    matchesHHMMPattern "09:30:15.123456" = false ∧
    TaskCreate_normalize_time "09:30:15.123456" = Except.ok "09:30:15" :=
  ⟨by decide, rfl⟩

/-- C8 witness: concrete instances of the accepted forms. -/
theorem C8_witness :
    timeStrHM 9 30 = "09:30" ∧
    TaskCreate_normalize_time "09:30:15" = Except.ok "09:30:15" ∧
    TaskCreate_normalize_time (timeStrHM 9 30) = Except.ok (timeStrHM 9 30) :=
  ⟨rfl, rfl, C8_time_accept_normalize.2.2.1 9 30 (by decide) (by decide)⟩

/-- C1 (amended): with the effective redirect URI being the explicit
argument when that is non-empty and the configured default when the
argument is omitted or empty, `exchange_code_for_tokens` fails with a
`TokenExchangeError` naming the allowed set and issues no network request
whenever the effective URI is outside the allow-list, and issues the
token-endpoint POST exactly when the membership check passes. -/
theorem C1_exchange_redirect_allowlist (s : Settings) (code : String) (ru : Option String) :
    (pyOrString ru s.cognito_redirect_uri ∉ s.cognito_redirect_uris →
      exchange_code_for_tokens s code ru = Except.error (PyError.tokenExchange
        ("Received redirect URI does not match configured value. Expected one of: " ++
          String.intercalate ", " s.cognito_redirect_uris))) ∧
    (pyOrString ru s.cognito_redirect_uri ∈ s.cognito_redirect_uris →
      exchange_code_for_tokens s code ru = Except.ok
        ⟨s.token_endpoint, "authorization_code", s.cognito_client_id, code,
         pyOrString ru s.cognito_redirect_uri,
         match s.cognito_client_secret with
         | Option.none => Option.none
         | some secret =>
           if secret = "" then Option.none else some (s.cognito_client_id, secret)⟩) := by
  constructor
  · intro h
    simp [exchange_code_for_tokens, h]
  · intro h
    simp [exchange_code_for_tokens, h]

/-- C1 counterexample: with the explicit argument set to the empty string
(whose claimed effective redirect URI, the explicit argument itself, is not
in the allow-list), the call does not fail: it issues the POST, with the
configured default substituted for the empty argument. -/
theorem C1_counterexample :
    "" ∉ exSettings.cognito_redirect_uris ∧
    exchange_code_for_tokens exSettings "authcode" (some "") =
      Except.ok ⟨"https://auth.example.com/oauth2/token", "authorization_code",
        "client123", "authcode", "https://app.example.com/callback", Option.none⟩ :=
  ⟨by decide, rfl⟩

/-- C1 witness: a redirect URI outside the configured allow-list is rejected
with the error naming the allowed set. -/
theorem C1_witness :
    exchange_code_for_tokens exSettings "authcode" (some "https://evil.example/cb") =
      Except.error (PyError.tokenExchange
        ("Received redirect URI does not match configured value. Expected one of: " ++
          String.intercalate ", " exSettings.cognito_redirect_uris)) :=
  (C1_exchange_redirect_allowlist exSettings "authcode" (some "https://evil.example/cb")).1
    (by decide)

/-- C2: when key resolution and the signature/issuer/audience/time checks
of `jwt.decode` all succeed, `validate_id_token` still fails with
`TokenVerificationError` whenever the decoded `token_use` claim is not
exactly the string "id", and returns the full decoded claim set when it
is. -/
theorem C2_token_use_required (payload : PyDict) :
    (payload.get "token_use" ≠ some (PyVal.str "id") →
      validate_id_token (some ()) (some payload) =
        Except.error (PyError.tokenVerification "The provided token is not an ID token.")) ∧
    (payload.get "token_use" = some (PyVal.str "id") →
      validate_id_token (some ()) (some payload) = Except.ok payload) := by
  constructor
  · intro h
    simp [validate_id_token, h]
  · intro h
    simp [validate_id_token, h]

/-- C2 witness: an access token is rejected, an ID token's claims are
returned in full. -/
theorem C2_witness :
    validate_id_token (some ()) (some [("token_use", PyVal.str "access")]) =
      Except.error (PyError.tokenVerification "The provided token is not an ID token.") ∧
    validate_id_token (some ()) (some [("token_use", PyVal.str "id"), ("sub", PyVal.str "u1")]) =
      Except.ok [("token_use", PyVal.str "id"), ("sub", PyVal.str "u1")] :=
  ⟨(C2_token_use_required [("token_use", PyVal.str "access")]).1 (by decide),
   (C2_token_use_required [("token_use", PyVal.str "id"), ("sub", PyVal.str "u1")]).2 (by decide)⟩

/-- C10: a required configuration variable set to the empty string is
treated like an absent one: it appears in the missing list, `get_settings`
fails naming that list, and no `Settings` value can be produced. -/
theorem C10_empty_env_is_missing (env : Env) (k : String)
    (hk : k ∈ REQUIRED_ENV_VARS) (hempty : env k = some "") :
    k ∈ missingVars env ∧
    get_settings env = Except.error ("Missing required environment variables: " ++
      String.intercalate ", " (missingVars env)) ∧
    ∀ st : Settings, get_settings env ≠ Except.ok st := by
  have hmem : k ∈ missingVars env := by
    unfold missingVars
    apply List.mem_filter.mpr
    refine ⟨hk, ?_⟩
    rw [hempty]
    simp
  have hne : missingVars env ≠ [] := List.ne_nil_of_mem hmem
  refine ⟨hmem, ?_, ?_⟩
  · unfold get_settings
    rw [if_neg hne]
  · intro st h
    unfold get_settings at h
    rw [if_neg hne] at h
    exact Except.noConfusion h

/-- C10 witness: an environment assigning the empty string everywhere fails
fast, naming the variable. -/
theorem C10_witness :
    "COGNITO_REGION" ∈ missingVars (fun _ => some "") ∧
    get_settings (fun _ => some "") = Except.error ("Missing required environment variables: " ++
      String.intercalate ", " (missingVars (fun _ => some ""))) :=
  ⟨(C10_empty_env_is_missing (fun _ => some "") "COGNITO_REGION" (by decide) rfl).1,
   (C10_empty_env_is_missing (fun _ => some "") "COGNITO_REGION" (by decide) rfl).2.1⟩

/-- C3: upsert is idempotent on the subject identifier: starting from a
table without the subject, a first upsert inserts one row with both
timestamps set to its clock, and a second upsert with the same subject and
changed profile fields leaves exactly one row for that subject, carrying
the second call's field values, the first call's created timestamp, and the
second call's updated timestamp. -/
theorem C3_upsert_idempotent (db : UsersDb) (s : PyVal) (p1 p2 : PyDict) (t1 t2 : Nat)
    (hs : s.truthy = true) (h1 : p1.get "sub" = some s) (h2 : p2.get "sub" = some s)
    (hnew : ∀ r ∈ db, r.sub ≠ s) :
    upsert_user db p1 t1 = Except.ok (db ++ [profileRow s p1 t1 t1], profileDict s p1) ∧
    upsert_user (db ++ [profileRow s p1 t1 t1]) p2 t2 =
      Except.ok (db ++ [profileRow s p2 t1 t2], profileDict s p2) ∧
    (db ++ [profileRow s p2 t1 t2]).countP (fun r => r.sub == s) = 1 := by
  have hg1 : p1.pyGet "sub" = s := by simp [PyDict.pyGet, h1]
  have hg2 : p2.pyGet "sub" = s := by simp [PyDict.pyGet, h2]
  have hany : db.any (fun r => r.sub == s) = false := by
    apply List.any_eq_false.mpr
    intro r hr
    simp [hnew r hr]
  refine ⟨?_, ?_, ?_⟩
  · simp [upsert_user, hg1, hs, hany, profileRow, profileDict]
  · have hany1 : (db ++ [profileRow s p1 t1 t1]).any (fun r => r.sub == s) = true := by
      simp [List.any_append, profileRow]
    have hmapdb : db.map (fun r =>
        if r.sub == s then
          (⟨r.sub, p2.pyGet "email", p2.pyGet "name", p2.pyGet "given_name",
            p2.pyGet "family_name", p2.pyGet "picture", r.created_at, t2⟩ : UserRow)
        else r) = db := by
      have hcongr : db.map (fun r =>
          if r.sub == s then
            (⟨r.sub, p2.pyGet "email", p2.pyGet "name", p2.pyGet "given_name",
              p2.pyGet "family_name", p2.pyGet "picture", r.created_at, t2⟩ : UserRow)
          else r) = db.map id :=
        List.map_congr_left (fun a ha => by simp [hnew a ha])
      rw [hcongr, List.map_id]
    simp only [upsert_user, hg2, hs, if_true, hany1, List.map_append]
    rw [hmapdb]
    simp [profileRow, profileDict]
  · rw [List.countP_append]
    have h0 : db.countP (fun r => r.sub == s) = 0 :=
      List.countP_eq_zero.mpr (fun r hr => by simp [hnew r hr])
    rw [h0]
    simp [profileRow]

/-- C3 witness: two concrete upserts for the same subject with changed
email. -/
theorem C3_witness :
    upsert_user [] [("sub", PyVal.str "u1"), ("email", PyVal.str "old@x.example")] 1 =
      Except.ok ([profileRow (PyVal.str "u1") [("sub", PyVal.str "u1"), ("email", PyVal.str "old@x.example")] 1 1],
        profileDict (PyVal.str "u1") [("sub", PyVal.str "u1"), ("email", PyVal.str "old@x.example")]) ∧
    upsert_user [profileRow (PyVal.str "u1") [("sub", PyVal.str "u1"), ("email", PyVal.str "old@x.example")] 1 1]
        [("sub", PyVal.str "u1"), ("email", PyVal.str "new@x.example")] 2 =
      Except.ok ([profileRow (PyVal.str "u1") [("sub", PyVal.str "u1"), ("email", PyVal.str "new@x.example")] 1 2],
        profileDict (PyVal.str "u1") [("sub", PyVal.str "u1"), ("email", PyVal.str "new@x.example")]) := by
  have h := C3_upsert_idempotent [] (PyVal.str "u1")
    [("sub", PyVal.str "u1"), ("email", PyVal.str "old@x.example")]
    [("sub", PyVal.str "u1"), ("email", PyVal.str "new@x.example")] 1 2
    (by decide) rfl rfl (by intro r hr; cases hr)
  exact ⟨h.1, h.2.1⟩

/-- C7: a claim set without a non-empty subject identifier makes
`upsert_user` fail with the `ValueError` (not a store error) before any
table access, and the `/auth/verify` boundary maps that failure to HTTP 400
with the users table unchanged. -/
theorem C7_missing_subject (db : UsersDb) (payload : PyDict) (now : Nat)
    (hsub : payload.get "sub" = Option.none ∨ payload.get "sub" = some (PyVal.str "")) :
    upsert_user db payload now =
      Except.error (PyError.valueError "ID token payload did not include a subject identifier.") ∧
    (payload.get "token_use" = some (PyVal.str "id") →
      verify_token db (some ()) (some payload) now = (400, db)) := by
  have htr : (payload.pyGet "sub").truthy = false := by
    rcases hsub with h | h <;> simp [PyDict.pyGet, h, PyVal.truthy]
  constructor
  · simp [upsert_user, htr]
  · intro hid
    simp [verify_token, process_id_token, validate_id_token, hid, upsert_user, htr]

/-- C7 witness: a concrete payload lacking "sub" is rejected with 400 and
leaves the empty table empty. -/
theorem C7_witness :
    upsert_user [] exPayloadNoSub 7 =
      Except.error (PyError.valueError "ID token payload did not include a subject identifier.") ∧
    verify_token [] (some ()) (some exPayloadNoSub) 7 = (400, []) :=
  ⟨(C7_missing_subject [] exPayloadNoSub 7 (Or.inl rfl)).1,
   (C7_missing_subject [] exPayloadNoSub 7 (Or.inl rfl)).2 rfl⟩

/-- C9: upsert persists and returns only the six profile fields: the result
is determined by the payload's values at those six keys alone (any other
key, including merged userinfo claims, is discarded), and the returned user
dictionary has exactly those six keys and no timestamps. -/
theorem C9_only_profile_fields (db : UsersDb) (p q : PyDict) (now : Nat)
    (hagree : ∀ k ∈ profileKeys, p.get k = q.get k) :
    upsert_user db p now = upsert_user db q now ∧
    ∀ db' u, upsert_user db p now = Except.ok (db', u) → u.map Prod.fst = profileKeys := by
  have hs := hagree "sub" (by simp [profileKeys])
  have he := hagree "email" (by simp [profileKeys])
  have hn := hagree "name" (by simp [profileKeys])
  have hg := hagree "given_name" (by simp [profileKeys])
  have hf := hagree "family_name" (by simp [profileKeys])
  have hp := hagree "picture" (by simp [profileKeys])
  constructor
  · simp only [upsert_user, PyDict.pyGet, hs, he, hn, hg, hf, hp]
  · intro db' u h
    simp only [upsert_user] at h
    by_cases htr : (p.pyGet "sub").truthy
    · rw [if_pos htr] at h
      cases h
      rfl
    · rw [if_neg htr] at h
      exact Except.noConfusion h

/-- C9 witness: payloads differing only in non-profile keys produce the same
result. -/
theorem C9_witness :
    upsert_user [] [("sub", PyVal.str "u1"), ("custom", PyVal.int 5)] 3 =
      upsert_user [] [("sub", PyVal.str "u1"), ("locale", PyVal.str "en")] 3 :=
  (C9_only_profile_fields [] [("sub", PyVal.str "u1"), ("custom", PyVal.int 5)]
    [("sub", PyVal.str "u1"), ("locale", PyVal.str "en")] 3 (by decide)).1

/-- C4: `deactivate_task` returns true exactly when a row with that
identifier exists and is active; it changes no row that does not match (and
never removes rows); after it runs, active-task listing never includes that
identifier; and a second call for the same identifier returns false. -/
theorem C4_deactivate_semantics (db : TasksDb) (i : Int) :
    ((deactivate_task db i).2 = true ↔ ∃ r ∈ db, r.id = i ∧ r.isactive = 1) ∧
    ((deactivate_task db i).1.length = db.length) ∧
    (∀ r ∈ db, ¬(r.id = i ∧ r.isactive = 1) → r ∈ (deactivate_task db i).1) ∧
    (∀ e d r, r ∈ fetch_tasks_by_email_and_date (deactivate_task db i).1 e d → r.id ≠ i) ∧
    ((deactivate_task (deactivate_task db i).1 i).2 = false) := by
  refine ⟨?_, ?_, ?_, ?_, ?_⟩
  · simp [deactivate_task, List.countP_pos_iff]
  · simp [deactivate_task]
  · intro r hr hcond
    have hhit : (r.id == i && r.isactive == 1) = false := by
      by_cases hid : r.id = i
      · by_cases hact : r.isactive = 1
        · exact absurd ⟨hid, hact⟩ hcond
        · simp [hact]
      · simp [hid]
    simp only [deactivate_task]
    exact List.mem_map.mpr ⟨r, hr, by simp [hhit]⟩
  · intro e d r hrf
    by_cases hblank : pyStrip e = ""
    · simp [fetch_tasks_by_email_and_date, hblank] at hrf
    · simp only [fetch_tasks_by_email_and_date, if_neg hblank] at hrf
      rw [List.mem_insertionSort, List.mem_filter] at hrf
      obtain ⟨hmem, hpred⟩ := hrf
      simp only [Bool.and_eq_true, beq_iff_eq] at hpred
      obtain ⟨⟨_, _⟩, hact⟩ := hpred
      simp only [deactivate_task] at hmem
      rw [List.mem_map] at hmem
      obtain ⟨r0, _, heq⟩ := hmem
      intro hri
      by_cases hhit : (r0.id == i && r0.isactive == 1) = true
      · rw [if_pos hhit] at heq
        subst heq
        simp at hact
      · rw [if_neg hhit] at heq
        subst heq
        exact hhit (by simp [hri, hact])
  · simp only [deactivate_task, decide_eq_false_iff_not, Nat.not_lt, Nat.le_zero]
    apply List.countP_eq_zero.mpr
    intro r' hr'
    rw [List.mem_map] at hr'
    obtain ⟨r0, _, heq⟩ := hr'
    by_cases hhit : (r0.id == i && r0.isactive == 1) = true
    · rw [if_pos hhit] at heq
      subst heq
      simp
    · rw [if_neg hhit] at heq
      subst heq
      exact hhit

/-- C4 witness: deactivating a concrete active task succeeds, and the
repeated call returns false. -/
theorem C4_witness :
    (deactivate_task [exTaskRow] 1).2 = true ∧
    (deactivate_task (deactivate_task [exTaskRow] 1).1 1).2 = false :=
  ⟨(C4_deactivate_semantics [exTaskRow] 1).1.mpr ⟨exTaskRow, by decide, by decide⟩,
   (C4_deactivate_semantics [exTaskRow] 1).2.2.2.2⟩

/-- C5: for every non-blank email, active-task listing returns exactly the
active rows matching the (trimmed) email and the date, ordered by time
ascending with the identifier as tie-break. -/
theorem C5_list_active_ordered (db : TasksDb) (ue d : String) (hne : pyStrip ue ≠ "") :
    (fetch_tasks_by_email_and_date db ue d).Perm
      (db.filter (fun r => r.user_email == some (pyStrip ue) && r.date == d && r.isactive == 1)) ∧
    List.Sorted taskLe (fetch_tasks_by_email_and_date db ue d) := by
  constructor
  · simp only [fetch_tasks_by_email_and_date, if_neg hne]
    exact List.perm_insertionSort taskLe _
  · simp only [fetch_tasks_by_email_and_date, if_neg hne]
    exact List.sorted_insertionSort taskLe _

/-- C5 witness: two same-day tasks with times 08:00 and 09:00 come back in
that order, sorted. -/
theorem C5_witness :
    fetch_tasks_by_email_and_date [exTaskRow2, exTaskRow] "a@b.com" "2024-01-05" =
      [exTaskRow, exTaskRow2] ∧
    List.Sorted taskLe (fetch_tasks_by_email_and_date [exTaskRow2, exTaskRow] "a@b.com" "2024-01-05") :=
  ⟨by decide,
   (C5_list_active_ordered [exTaskRow2, exTaskRow] "a@b.com" "2024-01-05" (by decide)).2⟩

/-- C6 (amended): task insertion trims the email; an email that is empty
after trimming normalizes to absent in the returned pair, while the stored
row keeps the trimmed string (the empty string included); the new row is
always active and existing rows are untouched. -/
theorem C6_insert_email_normalization (db : TasksDb) (desc dt tm : String) (ue : Option String) :
    (insert_task db desc dt tm ue).1 =
      db ++ [⟨nextId db, desc, dt, tm, some (pyStrip (ue.getD "")), 1⟩] ∧
    (insert_task db desc dt tm ue).2.2 =
      (if pyStrip (ue.getD "") = "" then Option.none else some (pyStrip (ue.getD ""))) ∧
    ∀ r ∈ (insert_task db desc dt tm ue).1, r ∈ db ∨ r.isactive = 1 := by
  refine ⟨rfl, rfl, ?_⟩
  intro r hr
  simp only [insert_task, List.mem_append, List.mem_singleton] at hr
  rcases hr with hr | hr
  · exact Or.inl hr
  · exact Or.inr (by rw [hr])

/-- C6 counterexample: inserting with a whitespace-only email stores the
empty string in the row's owner-email column (a present value, not an
absent one), even though the returned normalized email is absent. -/
theorem C6_counterexample :
    (insert_task [] "buy" "2024-01-05" "09:30" (some "   ")).1.map (fun r => r.user_email) =
      [some ""] ∧
    (insert_task [] "buy" "2024-01-05" "09:30" (some "   ")).2.2 = Option.none :=
  ⟨rfl, rfl⟩

/-- C6 witness: a padded non-empty email is trimmed and returned, and the
inserted row is active. -/
theorem C6_witness :
    (insert_task [] "Buy milk" "2024-01-05" "09:30" (some " a@b.com ")).2.2 = some "a@b.com" ∧
    ∀ r ∈ (insert_task [] "Buy milk" "2024-01-05" "09:30" (some " a@b.com ")).1,
      r ∈ ([] : TasksDb) ∨ r.isactive = 1 :=
  ⟨by decide,
   (C6_insert_email_normalization [] "Buy milk" "2024-01-05" "09:30" (some " a@b.com ")).2.2⟩
